import Mathlib

/-!
Verification development for the Neural-net trading repository.

Shallow embedding of the supervisor / agent / risk / position subsystem:

* `trading/risk_manager.py` — `RiskManager.validate_trade`, `get_capital`,
  `calculate_daily_loss`;
* `integrated_automl_bot.py` — `IntegratedAutoMLTradingSystem.execute_signal`
  and `calculate_position_size`;
* `backend/trading/enhanced_trading_bot.py` — `run_trading_loop`;
* `backend/trading/user_bot_manager.py` — `create_bot_instance`,
  `stop_user_bot`, `_run_bot`.

Money amounts are modelled as rationals (the source uses Python floats in
ordinary arithmetic ranges); database rows are modelled as explicit values.
-/

namespace NeuralNet

/-! ## trading/risk_manager.py -/

/-- A proposed trade, as the dict passed to `RiskManager.validate_trade`:
`quantity` and `price` are supplied by the caller; `stop_loss` and
`take_profit` keys are absent (`none`) until `validate_trade` assigns them. -/
structure Trade where
  quantity : ℚ
  price : ℚ
  stop_loss : Option ℚ := none
  take_profit : Option ℚ := none
  deriving DecidableEq, Repr

/-- The risk parameters set in `RiskManager.__init__`. -/
structure RiskParams where
  max_daily_loss : ℚ
  max_position_size : ℚ
  stop_loss : ℚ
  take_profit : ℚ
  deriving DecidableEq, Repr

/-- The constants from `RiskManager.__init__`: 5% daily loss, 5% position
size, 2% stop-loss, 5% take-profit. -/
def riskDefaults : RiskParams :=
  { max_daily_loss := 5/100
    max_position_size := 5/100
    stop_loss := 2/100
    take_profit := 5/100 }

/-- `RiskManager.get_capital`: the users-table lookup result is `none` when
the row is absent, `some none` when the stored capital is NULL, and
`some (some c)` otherwise.  The source returns
`user["capital"] if user and user["capital"] else 500.0`; Python truthiness
makes a missing row, a NULL capital and a zero capital all fall back to the
default 500. -/
def get_capital (userRow : Option (Option ℚ)) : ℚ :=
  match userRow with
  | some (some c) => if c = 0 then 500 else c
  | some none => 500
  | none => 500

/-- One row of the trades table as seen by `calculate_daily_loss`: its
realized pnl and whether its timestamp is ≥ CURRENT_DATE. -/
structure TradeRow where
  pnl : ℚ
  today : Bool
  deriving DecidableEq, Repr

/-- `RiskManager.calculate_daily_loss`: `SUM(pnl)` over today's rows with
`pnl < 0`; SQL returns NULL (falsy, hence 0.0) on an empty selection, and
the source takes `abs` of the sum otherwise. -/
def calculate_daily_loss (trades : List TradeRow) : ℚ :=
  let total := ((trades.filter fun t => t.today && decide (t.pnl < 0)).map TradeRow.pnl).sum
  if total = 0 then 0 else |total|

/-- The two rejection branches of `RiskManager.validate_trade`, identified by
the warning each branch logs. -/
inductive RejectReason
  | positionTooLarge
  | dailyLossLimit
  deriving DecidableEq, Repr

/-- `RiskManager.validate_trade`: checks position size first, then daily
loss; on success it assigns `trade["stop_loss"]` and `trade["take_profit"]`
and returns True.  The first component is `none` for an approved trade and
`some r` for the branch that rejected it; the second component is the trade
dict as the caller sees it afterwards (the source mutates it in place). -/
def validate_trade (rm : RiskParams) (userRow : Option (Option ℚ))
    (trades : List TradeRow) (trade : Trade) : Option RejectReason × Trade :=
  let capital := get_capital userRow
  let trade_value := trade.quantity * trade.price
  if trade_value > capital * rm.max_position_size then
    (some RejectReason.positionTooLarge, trade)
  else
    let daily_loss := calculate_daily_loss trades
    if daily_loss ≥ capital * rm.max_daily_loss then
      (some RejectReason.dailyLossLimit, trade)
    else
      (none, { trade with
        stop_loss := some (trade.price * (1 - rm.stop_loss))
        take_profit := some (trade.price * (1 + rm.take_profit)) })

/-- Number of consecutive losing closes at the head of a most-recent-first
trade history.  The source keeps no such counter; this is only the notion
the spec speaks about. -/
def trailingLosses : List TradeRow → Nat
  | [] => 0
  | t :: rest => if t.pnl < 0 then trailingLosses rest + 1 else 0

/-- Claim C2: `validate_trade` never approves a trade whose notional exceeds
the max-position-size fraction of current capital; with capital 1000 and the
5% default, a notional of 60 is rejected as too large and a notional of 40
is approved when the daily-loss check also passes. -/
theorem riskGate_never_oversize :
    (∀ (rm : RiskParams) (userRow : Option (Option ℚ)) (trades : List TradeRow) (t : Trade),
        (validate_trade rm userRow trades t).1 = none →
        t.quantity * t.price ≤ get_capital userRow * rm.max_position_size)
    ∧ (validate_trade riskDefaults (some (some 1000)) [] { quantity := 6, price := 10 }).1
        = some RejectReason.positionTooLarge
    ∧ (validate_trade riskDefaults (some (some 1000)) [] { quantity := 4, price := 10 }).1
        = none := by
  refine ⟨?_, ?_, ?_⟩
  · intro rm userRow trades t h
    by_contra hgt
    rw [not_le] at hgt
    simp only [validate_trade, if_pos hgt] at h
    exact Option.some_ne_none _ h
  · norm_num [validate_trade, get_capital, riskDefaults, calculate_daily_loss]
  · norm_num [validate_trade, get_capital, riskDefaults, calculate_daily_loss]

/-- Witness for C2: the approved 40-notional trade indeed satisfies the
position-size bound. -/
theorem riskGate_never_oversize_witness :
    (Trade.mk 4 10 none none).quantity * (Trade.mk 4 10 none none).price
      ≤ get_capital (some (some 1000)) * riskDefaults.max_position_size :=
  riskGate_never_oversize.1 riskDefaults (some (some 1000)) []
    { quantity := 4, price := 10 }
    (by norm_num [validate_trade, get_capital, riskDefaults, calculate_daily_loss])

/-- Claim C10: `get_capital` falls back to the default 500 when the user row
is absent, the stored capital is NULL, or the stored capital is 0, so
`validate_trade` behaves for such a user exactly as for one with capital
500. -/
theorem get_capital_phantom_default :
    get_capital none = 500
    ∧ get_capital (some none) = 500
    ∧ get_capital (some (some 0)) = 500
    ∧ (∀ (rm : RiskParams) (trades : List TradeRow) (t : Trade),
        validate_trade rm none trades t
          = validate_trade rm (some (some 500)) trades t)
    ∧ (∀ (rm : RiskParams) (trades : List TradeRow) (t : Trade),
        validate_trade rm (some none) trades t
          = validate_trade rm (some (some 500)) trades t)
    ∧ (∀ (rm : RiskParams) (trades : List TradeRow) (t : Trade),
        validate_trade rm (some (some 0)) trades t
          = validate_trade rm (some (some 500)) trades t) := by
  have h500 : get_capital (some (some 500)) = 500 := by norm_num [get_capital]
  refine ⟨rfl, rfl, by norm_num [get_capital], ?_, ?_, ?_⟩ <;>
    · intro rm trades t
      simp only [validate_trade, h500]
      norm_num [get_capital]

/-- Claim C4, counterexample: with capital 1000, a trade of notional 60 and
a daily loss of 50 violate both limits at once; `validate_trade` rejects for
position size, not for daily loss, so the daily-loss check is not the first
check as the claim states. -/
theorem validate_trade_order_counterexample :
    (validate_trade riskDefaults (some (some 1000)) [{ pnl := -50, today := true }]
        { quantity := 6, price := 10 }).1 = some RejectReason.positionTooLarge
    ∧ (validate_trade riskDefaults (some (some 1000)) [{ pnl := -50, today := true }]
        { quantity := 6, price := 10 }).1 ≠ some RejectReason.dailyLossLimit
    ∧ calculate_daily_loss [{ pnl := -50, today := true }]
        ≥ get_capital (some (some 1000)) * riskDefaults.max_daily_loss := by
  refine ⟨?_, ?_, ?_⟩ <;>
    · norm_num [validate_trade, get_capital, riskDefaults, calculate_daily_loss]
      try decide

/-- Claim C4, amended: `validate_trade` checks the proposed notional against
the max-position-size fraction of capital first, then the daily realized
loss against the max-daily-loss fraction; it performs no consecutive-loss or
expected-profit check, and it rejects with the reason of the first failing
check in that order. -/
theorem validate_trade_check_order :
    (∀ (rm : RiskParams) (userRow : Option (Option ℚ)) (trades : List TradeRow) (t : Trade),
        t.quantity * t.price > get_capital userRow * rm.max_position_size →
        (validate_trade rm userRow trades t).1 = some RejectReason.positionTooLarge)
    ∧ (∀ (rm : RiskParams) (userRow : Option (Option ℚ)) (trades : List TradeRow) (t : Trade),
        t.quantity * t.price ≤ get_capital userRow * rm.max_position_size →
        calculate_daily_loss trades ≥ get_capital userRow * rm.max_daily_loss →
        (validate_trade rm userRow trades t).1 = some RejectReason.dailyLossLimit)
    ∧ (∀ (rm : RiskParams) (userRow : Option (Option ℚ)) (trades : List TradeRow) (t : Trade),
        t.quantity * t.price ≤ get_capital userRow * rm.max_position_size →
        calculate_daily_loss trades < get_capital userRow * rm.max_daily_loss →
        (validate_trade rm userRow trades t).1 = none) := by
  refine ⟨?_, ?_, ?_⟩
  · intro rm userRow trades t hsize
    simp only [validate_trade, if_pos hsize]
  · intro rm userRow trades t hsize hdaily
    simp only [validate_trade, if_neg (not_lt.mpr hsize), if_pos hdaily]
  · intro rm userRow trades t hsize hdaily
    simp only [validate_trade, if_neg (not_lt.mpr hsize), if_neg (not_le.mpr hdaily)]

/-- Witness for the amended C4: each branch of the check order fires on a
concrete input. -/
theorem validate_trade_check_order_witness :
    (validate_trade riskDefaults (some (some 1000)) [] { quantity := 6, price := 10 }).1
      = some RejectReason.positionTooLarge
    ∧ (validate_trade riskDefaults (some (some 1000)) [{ pnl := -50, today := true }]
        { quantity := 4, price := 10 }).1 = some RejectReason.dailyLossLimit
    ∧ (validate_trade riskDefaults (some (some 1000)) [] { quantity := 4, price := 10 }).1
      = none :=
  ⟨validate_trade_check_order.1 riskDefaults (some (some 1000)) []
      { quantity := 6, price := 10 } (by norm_num [get_capital, riskDefaults]),
   validate_trade_check_order.2.1 riskDefaults (some (some 1000))
      [{ pnl := -50, today := true }] { quantity := 4, price := 10 }
      (by norm_num [get_capital, riskDefaults])
      (by norm_num [get_capital, riskDefaults, calculate_daily_loss]),
   validate_trade_check_order.2.2 riskDefaults (some (some 1000)) []
      { quantity := 4, price := 10 } (by norm_num [get_capital, riskDefaults])
      (by norm_num [get_capital, riskDefaults, calculate_daily_loss])⟩

/-- Claim C7, counterexample: five consecutive losing closes of 1 each leave
the daily loss at 5, far below 5% of the default 500 capital, and the next
`validate_trade` call approves a small trade — there is no
consecutive-losses rejection. -/
theorem consecutive_losses_counterexample :
    trailingLosses
        [{ pnl := -1, today := true }, { pnl := -1, today := true },
         { pnl := -1, today := true }, { pnl := -1, today := true },
         { pnl := -1, today := true }] = 5
    ∧ (validate_trade riskDefaults (some (some 500))
        [{ pnl := -1, today := true }, { pnl := -1, today := true },
         { pnl := -1, today := true }, { pnl := -1, today := true },
         { pnl := -1, today := true }]
        { quantity := 1, price := 10 }).1 = none := by
  constructor
  · norm_num [trailingLosses]
  · norm_num [validate_trade, get_capital, riskDefaults, calculate_daily_loss]

/-- Claim C7, amended: the risk manager keeps no consecutive-loss counter
and has no `RecordOutcome`; its decision depends only on capital, the
proposed notional and the daily realized loss, so even after five or more
consecutive losing closes the next trade is approved whenever the
position-size and daily-loss checks pass. -/
theorem no_consecutive_loss_check (rm : RiskParams) (userRow : Option (Option ℚ))
    (trades : List TradeRow) (t : Trade)
    (hlosses : 5 ≤ trailingLosses trades)
    (hsize : t.quantity * t.price ≤ get_capital userRow * rm.max_position_size)
    (hdaily : calculate_daily_loss trades < get_capital userRow * rm.max_daily_loss) :
    (validate_trade rm userRow trades t).1 = none := by
  simp only [validate_trade, if_neg (not_lt.mpr hsize), if_neg (not_le.mpr hdaily)]

/-- Witness for the amended C7: after five losing closes of 1 each, a
10-notional trade against the default 500 capital is approved. -/
theorem no_consecutive_loss_check_witness :
    (validate_trade riskDefaults (some (some 500))
        [{ pnl := -1, today := true }, { pnl := -1, today := true },
         { pnl := -1, today := true }, { pnl := -1, today := true },
         { pnl := -1, today := true }]
        { quantity := 1, price := 10 }).1 = none :=
  no_consecutive_loss_check riskDefaults (some (some 500))
    [{ pnl := -1, today := true }, { pnl := -1, today := true },
     { pnl := -1, today := true }, { pnl := -1, today := true },
     { pnl := -1, today := true }]
    { quantity := 1, price := 10 }
    (by norm_num [trailingLosses])
    (by norm_num [get_capital, riskDefaults])
    (by norm_num [get_capital, riskDefaults, calculate_daily_loss])

/-- Claim C8, counterexample: approving a trade of price 100 mutates the
proposed trade dict, setting its `stop_loss` key to 98 and its
`take_profit` key to 105, so `validate_trade` does not leave the proposed
trade unchanged. -/
theorem validate_trade_mutation_counterexample :
    (validate_trade riskDefaults (some (some 1000)) [] { quantity := 1/2, price := 100 }).2
      ≠ ({ quantity := 1/2, price := 100 } : Trade)
    ∧ (validate_trade riskDefaults (some (some 1000)) []
        { quantity := 1/2, price := 100 }).2.stop_loss = some 98
    ∧ (validate_trade riskDefaults (some (some 1000)) []
        { quantity := 1/2, price := 100 }).2.take_profit = some 105 := by
  have h2 : (validate_trade riskDefaults (some (some 1000)) []
      { quantity := 1/2, price := 100 }).2.stop_loss = some 98 := by
    norm_num [validate_trade, get_capital, riskDefaults, calculate_daily_loss]
  have h3 : (validate_trade riskDefaults (some (some 1000)) []
      { quantity := 1/2, price := 100 }).2.take_profit = some 105 := by
    norm_num [validate_trade, get_capital, riskDefaults, calculate_daily_loss]
  refine ⟨?_, h2, h3⟩
  intro h
  rw [h] at h2
  simp at h2

/-- Claim C8, amended: `validate_trade` writes nothing to the database and
leaves the trade unchanged on both rejection paths, but on approval it
mutates the proposed trade in place, assigning
`stop_loss = price * (1 - 0.02)` and `take_profit = price * (1 + 0.05)`. -/
theorem validate_trade_frame :
    (∀ (rm : RiskParams) (userRow : Option (Option ℚ)) (trades : List TradeRow) (t : Trade),
        (validate_trade rm userRow trades t).1 ≠ none →
        (validate_trade rm userRow trades t).2 = t)
    ∧ (∀ (rm : RiskParams) (userRow : Option (Option ℚ)) (trades : List TradeRow) (t : Trade),
        (validate_trade rm userRow trades t).1 = none →
        (validate_trade rm userRow trades t).2 =
          { t with stop_loss := some (t.price * (1 - rm.stop_loss))
                   take_profit := some (t.price * (1 + rm.take_profit)) }) := by
  constructor <;>
    · intro rm userRow trades t h
      simp only [validate_trade] at h ⊢
      split_ifs at h ⊢ <;> first | rfl | simp at h

/-- Witness for the amended C8: a rejected trade comes back unchanged and an
approved trade comes back with the assigned stop and target. -/
theorem validate_trade_frame_witness :
    (validate_trade riskDefaults (some (some 1000)) [] { quantity := 6, price := 10 }).2
      = ({ quantity := 6, price := 10 } : Trade)
    ∧ (validate_trade riskDefaults (some (some 1000)) [] { quantity := 1/2, price := 100 }).2
      = { quantity := 1/2, price := 100,
          stop_loss := some (100 * (1 - riskDefaults.stop_loss)),
          take_profit := some (100 * (1 + riskDefaults.take_profit)) } :=
  ⟨validate_trade_frame.1 riskDefaults (some (some 1000)) [] { quantity := 6, price := 10 }
      (by norm_num [validate_trade, get_capital, riskDefaults, calculate_daily_loss]
          try decide),
   validate_trade_frame.2 riskDefaults (some (some 1000)) [] { quantity := 1/2, price := 100 }
      (by norm_num [validate_trade, get_capital, riskDefaults, calculate_daily_loss])⟩

/-! ## integrated_automl_bot.py — IntegratedAutoMLTradingSystem -/

/-- The direction of a generated signal: the source uses the strings
BUY and SELL. -/
inductive SignalKind
  | buy
  | sell
  deriving DecidableEq, Repr

/-- A signal dict as built by `generate_signals` and consumed by
`execute_signal`. -/
structure TradeSignal where
  kind : SignalKind
  confidence : ℚ
  current_price : ℚ
  deriving DecidableEq, Repr

/-- An entry of `self.trading_bot.positions[symbol]` with the fields
`execute_signal` and `close_position` read. -/
structure BotPosition where
  entry_price : ℚ
  amount : ℚ
  deriving DecidableEq, Repr

/-- The configuration fields of `IntegratedAutoMLTradingSystem` used by
`execute_signal` and `calculate_position_size`. -/
structure SystemConfig where
  min_confidence : ℚ
  max_position_size : ℚ
  stop_loss_pct : ℚ
  take_profit_pct : ℚ
  deriving DecidableEq, Repr

/-- The default configuration of `IntegratedAutoMLTradingSystem`:
min_confidence 0.65, max_position_size 0.1, stop_loss_pct 0.02,
take_profit_pct 0.05. -/
def automlDefaults : SystemConfig :=
  { min_confidence := 65/100
    max_position_size := 1/10
    stop_loss_pct := 2/100
    take_profit_pct := 5/100 }

/-- What one `execute_signal` call does for a symbol. -/
inductive BotAction
  | skip                 -- confidence below threshold: return without acting
  | close (reason : String)
  | openPos (size : ℚ)   -- open_position called with this portfolio fraction
  | hold                 -- no branch matched: position (or no position) kept
  deriving DecidableEq, Repr

/-- `IntegratedAutoMLTradingSystem.calculate_position_size`: quarter-Kelly
sizing scaled by confidence and capped at `max_position_size`; `win_rate` is
the stored precision metric for the symbol (0.5 when absent). -/
def calculate_position_size (cfg : SystemConfig) (win_rate confidence : ℚ) : ℚ :=
  let p := win_rate
  let q := 1 - p
  let b := cfg.take_profit_pct / cfg.stop_loss_pct
  let kelly_fraction := if b > 0 then (p * b - q) / b else 0
  let position_size := kelly_fraction * confidence * (1/4)
  max 0 (min position_size cfg.max_position_size)

/-- `IntegratedAutoMLTradingSystem.execute_signal`: skip when confidence is
below `min_confidence`; with an open position, close on
`pnl_pct ≤ -stop_loss_pct` (STOP_LOSS), else on `pnl_pct ≥ take_profit_pct`
(TAKE_PROFIT), else on a SELL signal (SIGNAL), else keep holding; with no
position, open one on a BUY signal. -/
def execute_signal (cfg : SystemConfig) (win_rate : ℚ) (position : Option BotPosition)
    (signal : TradeSignal) : BotAction :=
  if signal.confidence < cfg.min_confidence then
    BotAction.skip
  else
    let position_size := calculate_position_size cfg win_rate signal.confidence
    match position with
    | some pos =>
        let pnl_pct := (signal.current_price - pos.entry_price) / pos.entry_price
        if pnl_pct ≤ -cfg.stop_loss_pct then BotAction.close "STOP_LOSS"
        else if pnl_pct ≥ cfg.take_profit_pct then BotAction.close "TAKE_PROFIT"
        else if signal.kind = SignalKind.sell then BotAction.close "SIGNAL"
        else BotAction.hold
    | none =>
        if signal.kind = SignalKind.buy then BotAction.openPos position_size
        else BotAction.hold

/-- Claim C5, counterexample: for a position entered at 100 the stop level
is 98, yet with the current price at 97 a signal of confidence 0.5 (below
the 0.65 threshold) makes `execute_signal` return before any position
management, so no stop-loss close happens. -/
theorem stop_loss_counterexample :
    execute_signal automlDefaults (1/2) (some { entry_price := 100, amount := 10 })
        { kind := SignalKind.buy, confidence := 1/2, current_price := 97 }
      = BotAction.skip
    ∧ execute_signal automlDefaults (1/2) (some { entry_price := 100, amount := 10 })
        { kind := SignalKind.buy, confidence := 1/2, current_price := 97 }
      ≠ BotAction.close "STOP_LOSS"
    ∧ (97 : ℚ) ≤ 100 * (1 - automlDefaults.stop_loss_pct) := by
  refine ⟨?_, ?_, ?_⟩
  · norm_num [execute_signal, automlDefaults]
  · norm_num [execute_signal, automlDefaults]
    decide
  · norm_num [automlDefaults]

/-- Claim C5, amended: once the signal passes the confidence gate, a long
position whose current price is at or below `entry_price * (1 -
stop_loss_pct)` is closed with reason STOP_LOSS, and this branch is checked
before the take-profit and sell-signal exits, whatever those would say. -/
theorem stop_loss_closes_first (cfg : SystemConfig) (win_rate : ℚ)
    (pos : BotPosition) (signal : TradeSignal)
    (hconf : cfg.min_confidence ≤ signal.confidence)
    (hentry : 0 < pos.entry_price)
    (hsl : signal.current_price ≤ pos.entry_price * (1 - cfg.stop_loss_pct)) :
    execute_signal cfg win_rate (some pos) signal = BotAction.close "STOP_LOSS" := by
  have hdiff : signal.current_price - pos.entry_price
      ≤ -cfg.stop_loss_pct * pos.entry_price := by nlinarith
  have hpnl : (signal.current_price - pos.entry_price) / pos.entry_price
      ≤ -cfg.stop_loss_pct := by
    rw [div_le_iff₀ hentry]
    exact hdiff
  simp only [execute_signal, if_neg (not_lt.mpr hconf), if_pos hpnl]

/-- Witness for the amended C5: entry 100, price 97, confidence 0.7 closes
with STOP_LOSS. -/
theorem stop_loss_closes_first_witness :
    execute_signal automlDefaults (1/2) (some { entry_price := 100, amount := 10 })
        { kind := SignalKind.buy, confidence := 7/10, current_price := 97 }
      = BotAction.close "STOP_LOSS" :=
  stop_loss_closes_first automlDefaults (1/2) { entry_price := 100, amount := 10 }
    { kind := SignalKind.buy, confidence := 7/10, current_price := 97 }
    (by norm_num [automlDefaults]) (by norm_num) (by norm_num [automlDefaults])

/-- Claim C6, counterexample: in the spec scenario (long entry 100, price
rising to 103 then falling to 101.9) `execute_signal` holds the position at
both prices — nothing arms at 103 and nothing closes at 101.9, because no
trailing-stop logic exists in the code. -/
theorem trailing_stop_counterexample :
    execute_signal automlDefaults (1/2) (some { entry_price := 100, amount := 10 })
        { kind := SignalKind.buy, confidence := 7/10, current_price := 103 }
      = BotAction.hold
    ∧ execute_signal automlDefaults (1/2) (some { entry_price := 100, amount := 10 })
        { kind := SignalKind.buy, confidence := 7/10, current_price := 1019/10 }
      = BotAction.hold
    ∧ execute_signal automlDefaults (1/2) (some { entry_price := 100, amount := 10 })
        { kind := SignalKind.buy, confidence := 7/10, current_price := 1019/10 }
      ≠ BotAction.close "TRAILING_STOP" := by
  refine ⟨?_, ?_, ?_⟩ <;>
    · norm_num [execute_signal, automlDefaults]
      decide

/-- Claim C6, amended: position management has no trailing stop; every close
decision of `execute_signal` is a stop-loss breach, a take-profit breach or
a SELL signal, and in the spec scenario the fall from 103 to 101.9 leaves
the position held. -/
theorem no_trailing_stop :
    (∀ (cfg : SystemConfig) (win_rate : ℚ) (pos : BotPosition)
        (signal : TradeSignal) (r : String),
        execute_signal cfg win_rate (some pos) signal = BotAction.close r →
        r = "STOP_LOSS" ∨ r = "TAKE_PROFIT" ∨ r = "SIGNAL")
    ∧ execute_signal automlDefaults (1/2) (some { entry_price := 100, amount := 10 })
        { kind := SignalKind.buy, confidence := 7/10, current_price := 1019/10 }
      = BotAction.hold := by
  constructor
  · intro cfg win_rate pos signal r h
    simp only [execute_signal] at h
    split_ifs at h <;> simp_all
  · norm_num [execute_signal, automlDefaults]
    decide

/-- Witness for the amended C6: a SELL signal on a flat position closes with
reason SIGNAL, one of the three possible close reasons. -/
theorem no_trailing_stop_witness :
    ("SIGNAL" : String) = "STOP_LOSS" ∨ ("SIGNAL" : String) = "TAKE_PROFIT"
      ∨ ("SIGNAL" : String) = "SIGNAL" :=
  no_trailing_stop.1 automlDefaults (1/2) { entry_price := 100, amount := 10 }
    { kind := SignalKind.sell, confidence := 7/10, current_price := 100 } "SIGNAL"
    (by norm_num [execute_signal, automlDefaults])

/-! ## backend/trading/enhanced_trading_bot.py and user_bot_manager.py -/

/-- How one iteration of `EnhancedTradingBot.run_trading_loop` ends: the
body completes (resetting `error_count` to 0), raises an Exception
(incrementing it), or a CancelledError is delivered (the handler breaks). -/
inductive IterOutcome
  | ok
  | err
  | cancelled
  deriving DecidableEq, Repr

/-- Observable outcome of `run_trading_loop` on a finite trace of iteration
outcomes: how many loop bodies were attempted, the final consecutive-error
counter, and whether the consecutive-error limit stopped the loop. -/
structure LoopResult where
  iterations : Nat
  error_count : Nat
  maxErrorsHit : Bool
  deriving DecidableEq, Repr

/-- `EnhancedTradingBot.run_trading_loop` over a finite trace: starts with
`error_count = 0`, `max_errors = 5` at the call site; `ok` resets the
counter, `err` increments it and stops the loop once the counter reaches
`max_errors`, `cancelled` breaks out.  An exhausted trace means the loop is
still running (`is_running` stayed true). -/
def run_trading_loop (max_errors : Nat) :
    List IterOutcome → Nat → Nat → LoopResult
  | [], error_count, n => ⟨n, error_count, false⟩
  | IterOutcome.ok :: rest, _, n => run_trading_loop max_errors rest 0 (n + 1)
  | IterOutcome.err :: rest, error_count, n =>
      if max_errors ≤ error_count + 1 then ⟨n + 1, error_count + 1, true⟩
      else run_trading_loop max_errors rest (error_count + 1) (n + 1)
  | IterOutcome.cancelled :: _, error_count, n => ⟨n + 1, error_count, false⟩

/-- `UserBotManager._run_bot`: sets the instance to "running", awaits
`run_trading_loop`, and then runs its `finally` block.  `run_trading_loop`
catches every exception itself — on hitting `max_errors` it sets
`is_running = False` and breaks, and it breaks on CancelledError — so the
except-branch of `_run_bot` that would call `_update_bot_error` (status
"error") is unreachable, and the `finally` block unconditionally sets the
BotInstance status to "stopped".  Returns the loop result together with the
final persisted status. -/
def run_bot (max_errors : Nat) (outcomes : List IterOutcome) : LoopResult × String :=
  let r := run_trading_loop max_errors outcomes 0 0
  (r, "stopped")

/-- Claim C3, counterexample: five consecutive failing iterations stop the
loop after exactly 5 attempts, but the persisted status is "stopped", not
"error" — the error-status transition the claim describes never happens. -/
theorem error_status_counterexample :
    (run_bot 5 (List.replicate 5 IterOutcome.err)).1.iterations = 5
    ∧ (run_bot 5 (List.replicate 5 IterOutcome.err)).1.maxErrorsHit = true
    ∧ (run_bot 5 (List.replicate 5 IterOutcome.err)).2 = "stopped"
    ∧ (run_bot 5 (List.replicate 5 IterOutcome.err)).2 ≠ "error" := by
  refine ⟨rfl, rfl, rfl, ?_⟩
  decide

/-- Claim C3, amended: with `max_errors = 5`, five consecutive failing
iterations stop the loop with no sixth iteration attempted, whatever would
have followed, and the bot instance ends with status "stopped" (not
"error"); a successful iteration resets the consecutive-error counter to
zero. -/
theorem max_consecutive_errors_stop :
    (∀ rest : List IterOutcome,
        (run_bot 5 (List.replicate 5 IterOutcome.err ++ rest)).1.iterations = 5
        ∧ (run_bot 5 (List.replicate 5 IterOutcome.err ++ rest)).1.maxErrorsHit = true
        ∧ (run_bot 5 (List.replicate 5 IterOutcome.err ++ rest)).2 = "stopped")
    ∧ (∀ (max_errors : Nat) (rest : List IterOutcome) (error_count n : Nat),
        run_trading_loop max_errors (IterOutcome.ok :: rest) error_count n
          = run_trading_loop max_errors rest 0 (n + 1)) := by
  constructor
  · intro rest
    exact ⟨rfl, rfl, rfl⟩
  · intro max_errors rest error_count n
    rfl

/-! ## backend/trading/user_bot_manager.py — UserBotManager -/

/-- A row of the bot_instances table with the fields `create_bot_instance`
reads and writes. -/
structure BotInstance where
  id : Nat
  user_id : Nat
  portfolio_id : Nat
  status : String
  deriving DecidableEq, Repr

/-- The filter `create_bot_instance` queries with:
`BotInstance.user_id == user_id, BotInstance.status.in_(["running",
"starting"])`. -/
def isActiveFor (user_id : Nat) (b : BotInstance) : Bool :=
  b.user_id == user_id && (b.status == "running" || b.status == "starting")

/-- Number of active ("running" or "starting") instances a user has in the
table. -/
def countActive (db : List BotInstance) (user_id : Nat) : Nat :=
  (db.filter (isActiveFor user_id)).length

/-- `UserBotManager.create_bot_instance`: raises
`ValueError("User already has an active bot")` when the user already has an
instance with status "running" or "starting"; otherwise inserts a new
instance with status "created".  Returns the result together with the table
afterwards (`new_id` models the id the database assigns). -/
def create_bot_instance (db : List BotInstance) (user_id portfolio_id new_id : Nat) :
    Except String BotInstance × List BotInstance :=
  if db.any (isActiveFor user_id) then
    (Except.error "User already has an active bot", db)
  else
    let bot : BotInstance :=
      { id := new_id, user_id := user_id, portfolio_id := portfolio_id, status := "created" }
    (Except.ok bot, db ++ [bot])

/-- Claim C1: creating a bot instance for a user who already has an active
("running" or "starting") instance fails with the already-running
ValueError and inserts nothing, and `create_bot_instance` never changes any
user's number of active instances (the new row has status "created"). -/
theorem single_active_bot :
    (∀ (db : List BotInstance) (user_id portfolio_id new_id : Nat),
        0 < countActive db user_id →
        create_bot_instance db user_id portfolio_id new_id
          = (Except.error "User already has an active bot", db))
    ∧ (∀ (db : List BotInstance) (user_id portfolio_id new_id v : Nat),
        countActive (create_bot_instance db user_id portfolio_id new_id).2 v
          = countActive db v) := by
  constructor
  · intro db user_id portfolio_id new_id h
    have hany : db.any (isActiveFor user_id) = true := by
      rw [List.any_eq_true]
      obtain ⟨b, hb⟩ := List.exists_mem_of_length_pos h
      exact ⟨b, List.mem_of_mem_filter hb, List.of_mem_filter hb⟩
    simp only [create_bot_instance, if_pos hany]
  · intro db user_id portfolio_id new_id v
    simp only [create_bot_instance]
    split_ifs with h
    · rfl
    · simp only [countActive, List.filter_append, List.length_append]
      have : List.filter (isActiveFor v)
          [{ id := new_id, user_id := user_id, portfolio_id := portfolio_id,
             status := "created" }] = [] := by
        simp [isActiveFor]
      rw [this]
      simp

/-- Witness for C1: with one running instance for user 7, a second creation
request for user 7 fails and leaves the table unchanged. -/
theorem single_active_bot_witness :
    create_bot_instance [{ id := 1, user_id := 7, portfolio_id := 3, status := "running" }] 7 4 2
      = (Except.error "User already has an active bot",
         [{ id := 1, user_id := 7, portfolio_id := 3, status := "running" }]) :=
  single_active_bot.1 [{ id := 1, user_id := 7, portfolio_id := 3, status := "running" }] 7 4 2
    (by decide)

/-- The mutable state of a `UserBotManager`: the three registries keyed by
user id (`bot_tasks` also carries the bot instance id its task runs), the
bot_instances table, and the notifications sent so far. -/
structure ManagerState where
  active_bots : List Nat
  bot_tasks : List (Nat × Nat)
  bot_status : List Nat
  db : List BotInstance
  notifications : List (Nat × String)
  deriving DecidableEq, Repr

/-- `UserBotManager.stop_user_bot`: with no task registered for the user it
returns False and touches nothing.  Otherwise it cancels the task — awaiting
it runs `_run_bot`'s cleanup, which removes the user from all three
registries and marks the instance "stopped" — then sends a "bot_stopped"
notification and returns True. -/
def stop_user_bot (st : ManagerState) (user_id : Nat) : Bool × ManagerState :=
  match st.bot_tasks.find? (fun p => p.1 == user_id) with
  | none => (false, st)
  | some (_, bot_instance_id) =>
      (true,
        { st with
          active_bots := st.active_bots.filter (fun v => v ≠ user_id)
          bot_tasks := st.bot_tasks.filter (fun p => p.1 ≠ user_id)
          bot_status := st.bot_status.filter (fun v => v ≠ user_id)
          db := st.db.map fun b =>
            if b.id = bot_instance_id then { b with status := "stopped" } else b
          notifications := st.notifications ++ [(user_id, "bot_stopped")] })

/-- Claim C9: `stop_user_bot` for a user with no registered task returns
False and changes no state — no registry mutation, no status transition, no
notification — and calling it again gives the same no-op. -/
theorem stop_no_bot_noop (st : ManagerState) (user_id : Nat)
    (h : st.bot_tasks.find? (fun p => p.1 == user_id) = none) :
    stop_user_bot st user_id = (false, st)
    ∧ stop_user_bot (stop_user_bot st user_id).2 user_id = (false, st) := by
  have h1 : stop_user_bot st user_id = (false, st) := by
    simp only [stop_user_bot, h]
  exact ⟨h1, by rw [h1]; exact h1⟩

/-- Witness for C9: a state with an empty task registry (but a historical
stopped instance) is left untouched by `stop_user_bot`. -/
theorem stop_no_bot_noop_witness :
    stop_user_bot
        { active_bots := [], bot_tasks := [], bot_status := [],
          db := [{ id := 1, user_id := 7, portfolio_id := 3, status := "stopped" }],
          notifications := [] } 7
      = (false,
         { active_bots := [], bot_tasks := [], bot_status := [],
           db := [{ id := 1, user_id := 7, portfolio_id := 3, status := "stopped" }],
           notifications := [] }) :=
  (stop_no_bot_noop
    { active_bots := [], bot_tasks := [], bot_status := [],
      db := [{ id := 1, user_id := 7, portfolio_id := 3, status := "stopped" }],
      notifications := [] } 7 rfl).1

end NeuralNet
